import Mathlib

/-!
Verification of the AI-governance risk-classification core
(`source.py` scoring engine and the `app.py` CRUD/export layer).

Python data is embedded shallowly:
* enumerations become inductive types;
* pydantic models become structures (UUIDs and timestamps are modelled
  as natural numbers, which is faithful because the code only ever
  compares them for equality);
* the insertion-ordered `score_breakdown` dict becomes an association
  list `List (String × Nat)`;
* fallible construction (pydantic validation) returns `Except` with the
  list of violation messages.
-/

namespace AIGov

inductive AIType
  | ML
  | LLM
  | AGENT
deriving DecidableEq

inductive DeploymentMode
  | BATCH
  | REAL_TIME
  | HUMAN_IN_LOOP
  | INTERNAL_ONLY
deriving DecidableEq

inductive DataSensitivity
  | PUBLIC
  | INTERNAL
  | CONFIDENTIAL
  | REGULATED_PII
deriving DecidableEq

inductive DecisionCriticality
  | LOW
  | MEDIUM
  | HIGH
deriving DecidableEq

inductive AutomationLevel
  | ADVISORY
  | HUMAN_APPROVAL
  | FULLY_AUTOMATED
deriving DecidableEq

inductive RiskTier
  | TIER_1
  | TIER_2
  | TIER_3
deriving DecidableEq

inductive LifecyclePhase
  | DESIGN
  | DEVELOPMENT
  | TRAINING
  | TESTING
  | DEPLOYMENT
  | MONITORING
  | MAINTENANCE
  | DECOMMISSIONING
deriving DecidableEq

inductive RiskCategory
  | BIAS_FAIRNESS
  | PERFORMANCE_ROBUSTNESS
  | DATA_PRIVACY_SECURITY
  | INTERPRETABILITY_EXPLAINABILITY
  | OPERATIONAL_RELIABILITY
  | LEGAL_REGULATORY
  | REPUTATIONAL
  | ENVIRONMENTAL_SOCIAL
deriving DecidableEq

/-- The `.value` string of a `RiskTier` enum member. -/
def RiskTier.value : RiskTier → String
  | .TIER_1 => "TIER_1"
  | .TIER_2 => "TIER_2"
  | .TIER_3 => "TIER_3"

/-- `SystemRecord` pydantic model (`source.py`).  UUIDs and datetimes are
modelled as `Nat`. -/
structure SystemRecord where
  system_id : Nat
  name : String
  description : String
  domain : String
  ai_type : AIType
  owner_role : String
  deployment_mode : DeploymentMode
  decision_criticality : DecisionCriticality
  automation_level : AutomationLevel
  data_sensitivity : DataSensitivity
  external_dependencies : List String
  last_updated : Nat
deriving DecidableEq

/-- `RiskTierResult` pydantic model.  The `score_breakdown` dict is an
insertion-ordered association list. -/
structure RiskTierResult where
  system_id : Nat
  risk_tier : RiskTier
  score_breakdown : List (String × Nat)
  justification : String
  required_controls : List String
  computed_at : Nat
  scoring_version : String := "1.0"
deriving DecidableEq

/-- `LifecycleRisk` pydantic model.  `impact`, `likelihood` and
`severity` are Python ints, modelled as `Int`. -/
structure LifecycleRisk where
  risk_id : Nat
  system_id : Nat
  lifecycle_phase : LifecyclePhase
  risk_category : RiskCategory
  risk_statement : String
  impact : Int
  likelihood : Int
  severity : Int := 0
  mitigation : Option String := none
  owner_role : Option String := none
  evidence_links : List String := []
  created_at : Nat
deriving DecidableEq

/-- `LifecycleRisk.model_post_init`: unconditionally overwrites
`severity` with `impact * likelihood`. -/
def model_post_init (r : LifecycleRisk) : LifecycleRisk :=
  { r with severity := r.impact * r.likelihood }

/-- `SCORING_RUBRIC` entries keyed by `DecisionCriticality`. -/
def SCORING_RUBRIC_decision_criticality : DecisionCriticality → Nat
  | .LOW => 1
  | .MEDIUM => 3
  | .HIGH => 5

/-- `SCORING_RUBRIC` entries keyed by `DataSensitivity`. -/
def SCORING_RUBRIC_data_sensitivity : DataSensitivity → Nat
  | .PUBLIC => 1
  | .INTERNAL => 2
  | .CONFIDENTIAL => 4
  | .REGULATED_PII => 5

/-- `SCORING_RUBRIC` entries keyed by `AutomationLevel`. -/
def SCORING_RUBRIC_automation_level : AutomationLevel → Nat
  | .ADVISORY => 1
  | .HUMAN_APPROVAL => 3
  | .FULLY_AUTOMATED => 5

/-- `SCORING_RUBRIC` entries keyed by `AIType`. -/
def SCORING_RUBRIC_ai_type : AIType → Nat
  | .ML => 3
  | .LLM => 4
  | .AGENT => 5

/-- `SCORING_RUBRIC` entries keyed by `DeploymentMode`. -/
def SCORING_RUBRIC_deployment_mode : DeploymentMode → Nat
  | .INTERNAL_ONLY => 1
  | .BATCH => 2
  | .HUMAN_IN_LOOP => 3
  | .REAL_TIME => 4

/-- `score_external_dependencies`: 2 points if any external dependencies
exist, 0 otherwise. -/
def score_external_dependencies (dependencies : List String) : Nat :=
  if dependencies.isEmpty then 0 else 2

/-- `TIER_THRESHOLDS["TIER_1_MIN"]`. -/
def TIER_1_MIN : Nat := 22
/-- `TIER_THRESHOLDS["TIER_2_MIN"]`. -/
def TIER_2_MIN : Nat := 15
/-- `TIER_THRESHOLDS["TIER_2_MAX"]`. -/
def TIER_2_MAX : Nat := 21
/-- `TIER_THRESHOLDS["TIER_3_MAX"]`. -/
def TIER_3_MAX : Nat := 14

/-- The `if`/`elif`/`else` tier classification inside
`calculate_risk_tier`, as a function of the total score. -/
def tierOf (total_score : Nat) : RiskTier :=
  if TIER_1_MIN ≤ total_score then RiskTier.TIER_1
  else if TIER_2_MIN ≤ total_score ∧ total_score ≤ TIER_2_MAX then RiskTier.TIER_2
  else RiskTier.TIER_3

/-- `REQUIRED_CONTROLS` table. -/
def REQUIRED_CONTROLS : RiskTier → List String
  | .TIER_1 =>
      ["Independent validation",
       "Full documentation pack",
       "Robustness & security testing",
       "Bias & interpretability assessment",
       "Monitoring dashboards",
       "Formal change control & rollback",
       "Incident response plan"]
  | .TIER_2 =>
      ["Peer validation",
       "Standard documentation",
       "Basic robustness & security tests",
       "Periodic monitoring"]
  | .TIER_3 =>
      ["Basic documentation",
       "Basic testing",
       "Periodic review"]

/-- A single-quote character, used when assembling the justification
string. -/
def sq : String := String.singleton (Char.ofNat 39)

/-- The justification f-string of `calculate_risk_tier`. -/
def mkJustification (name : String) (total_score : Nat) (tier : RiskTier) : String :=
  "The AI system " ++ sq ++ name ++ sq ++ " scored " ++ toString total_score ++
    " points, placing it in " ++ tier.value ++ " based on its characteristics."

/-- The six-entry `score_breakdown` dict built by `calculate_risk_tier`
before the total is appended, in Python insertion order. -/
def baseBreakdown (system : SystemRecord) : List (String × Nat) :=
  [("decision_criticality_score", SCORING_RUBRIC_decision_criticality system.decision_criticality),
   ("data_sensitivity_score", SCORING_RUBRIC_data_sensitivity system.data_sensitivity),
   ("automation_level_score", SCORING_RUBRIC_automation_level system.automation_level),
   ("ai_type_score", SCORING_RUBRIC_ai_type system.ai_type),
   ("deployment_mode_score", SCORING_RUBRIC_deployment_mode system.deployment_mode),
   ("external_dependencies_score", score_external_dependencies system.external_dependencies)]

/-- `total_score = sum(score_breakdown.values())` over the six base
entries. -/
def totalScoreOf (system : SystemRecord) : Nat :=
  ((baseBreakdown system).map Prod.snd).sum

/-- `calculate_risk_tier` (`source.py`).  `now` models `datetime.now()`
used for the `computed_at` default. -/
def calculate_risk_tier (system : SystemRecord) (now : Nat) : RiskTierResult :=
  { system_id := system.system_id
    risk_tier := tierOf (totalScoreOf system)
    score_breakdown := baseBreakdown system ++ [("total_score", totalScoreOf system)]
    justification := mkJustification system.name (totalScoreOf system) (tierOf (totalScoreOf system))
    required_controls := REQUIRED_CONTROLS (tierOf (totalScoreOf system))
    computed_at := now
    scoring_version := "1.0" }

/-- The Risk Tiering detailed view in `app.py` displays
`sum(selected_tier.score_breakdown.values())` as the Total Risk Score. -/
def displayed_total_risk_score (r : RiskTierResult) : Nat :=
  (r.score_breakdown.map Prod.snd).sum

/-- The pydantic range constraints on `LifecycleRisk`
(`impact: Field(..., ge=1, le=5)`, `likelihood: Field(..., ge=1, le=5)`),
returned as the list of violation messages. -/
def validateLifecycleRisk (impact likelihood : Int) : List String :=
  (if impact < 1 ∨ 5 < impact then ["impact must be between 1 and 5"] else []) ++
  (if likelihood < 1 ∨ 5 < likelihood then ["likelihood must be between 1 and 5"] else [])

/-- Constructing a `LifecycleRisk(...)`: pydantic validates the field
constraints, then `model_post_init` overwrites `severity` (whatever
`severity0` was supplied, or the default `0`) with
`impact * likelihood`.  On violation no object is produced and the
violation list is raised. -/
def mkLifecycleRisk (rid sid : Nat) (phase : LifecyclePhase) (cat : RiskCategory)
    (stmt : String) (impact likelihood severity0 : Int)
    (mitigation owner : Option String) (links : List String) (created : Nat) :
    Except (List String) LifecycleRisk :=
  match validateLifecycleRisk impact likelihood with
  | [] =>
      Except.ok (model_post_init
        { risk_id := rid
          system_id := sid
          lifecycle_phase := phase
          risk_category := cat
          risk_statement := stmt
          impact := impact
          likelihood := likelihood
          severity := severity0
          mitigation := mitigation
          owner_role := owner
          evidence_links := links
          created_at := created })
  | errs => Except.error errs

/-- Python whitespace for `str.strip()`. -/
def isPySpace (c : Char) : Bool :=
  c == ' ' || c == '\t' || c == '\n' || c == '\r' || c == '\x0b' || c == '\x0c'

/-- Python `str.strip()`: drop leading and trailing whitespace. -/
def strip (s : String) : String :=
  String.mk (((s.data.dropWhile isPySpace).reverse.dropWhile isPySpace).reverse)

/-- The successful mutation path of `edit_lifecycle_risk_form`
(`app.py` lines 1048-1058): fields are reassigned in place and
`severity` is set to `edit_impact * edit_likelihood`. -/
def edit_lifecycle_risk (r : LifecycleRisk) (phase : LifecyclePhase) (cat : RiskCategory)
    (stmt : String) (impact likelihood : Int) (mitigation owner : String)
    (links : List String) : LifecycleRisk :=
  { r with
    lifecycle_phase := phase
    risk_category := cat
    risk_statement := strip stmt
    impact := impact
    likelihood := likelihood
    severity := impact * likelihood
    mitigation := some (strip mitigation)
    owner_role := some (strip owner)
    evidence_links := links }

/-- One step of Python stable sorting: insert `x` in front of the first
already-placed element whose severity is not larger, so that an element
inserted earlier keeps its place ahead of equal-severity elements that
came later. -/
def insertRisk (x : LifecycleRisk) : List LifecycleRisk → List LifecycleRisk
  | [] => [x]
  | y :: ys => if y.severity ≤ x.severity then x :: y :: ys else y :: insertRisk x ys

/-- `lifecycle_risks.sort(key=lambda x: x.severity, reverse=True)`:
Python's list sort is specified to be stable, and with `reverse=True`
equal-key elements still keep their original order; this stable
descending-by-severity insertion sort realizes exactly that
specification. -/
def sortRisksBySeverity : List LifecycleRisk → List LifecycleRisk
  | [] => []
  | x :: xs => insertRisk x (sortRisksBySeverity xs)

/-- The three session-state collections of `app.py`. -/
structure AppState where
  system_records : List SystemRecord
  risk_tier_results : List RiskTierResult
  lifecycle_risks : List LifecycleRisk
deriving DecidableEq

/-- The Delete System tab (`app.py` lines 573-581): all three
collections are filtered on the selected system identifier. -/
def deleteSystem (st : AppState) (target : Nat) : AppState :=
  { system_records := st.system_records.filter (fun s => s.system_id != target)
    risk_tier_results := st.risk_tier_results.filter (fun r => r.system_id != target)
    lifecycle_risks := st.lifecycle_risks.filter (fun lr => lr.system_id != target) }

/-- Text-length validation of `add_lifecycle_risk_form`, in the order
the form checks and appends the messages. -/
def validate_risk_form_text (risk_statement mitigation owner_role : String) : List String :=
  (if (strip risk_statement) = "" then ["Risk Statement is required"]
   else if (strip risk_statement).length < 10 then ["Risk Statement must be at least 10 characters long"]
   else if 1000 < (strip risk_statement).length then ["Risk Statement must not exceed 1000 characters"]
   else []) ++
  (if (strip mitigation) = "" then ["Mitigation is required"]
   else if (strip mitigation).length < 10 then ["Mitigation must be at least 10 characters long"]
   else if 1000 < (strip mitigation).length then ["Mitigation must not exceed 1000 characters"]
   else []) ++
  (if (strip owner_role) = "" then ["Owner Role is required"]
   else if (strip owner_role).length < 2 then ["Owner Role must be at least 2 characters long"]
   else if 100 < (strip owner_role).length then ["Owner Role must not exceed 100 characters"]
   else [])

/-- `[url.strip() for url in evidence_links_input.split(",") if url.strip()]`,
guarded by `if evidence_links_input and evidence_links_input.strip()`. -/
def parse_evidence_links (input : String) : List String :=
  if (strip input) = "" then []
  else (input.splitOn ",").filterMap (fun u => if (strip u) = "" then none else some (strip u))

/-- The URL-validation loop of the form: report the first link rejected
by the regex matcher `url_ok` and stop (`break`). -/
def url_errors (url_ok : String → Bool) (links : List String) : List String :=
  match links.find? (fun u => !(url_ok u)) with
  | some u => ["Invalid URL format: " ++ u]
  | none => []

/-- `add_lifecycle_risk_form` submission (`app.py` lines 841-917):
collect the validation violations; if any, report them and leave the
collections untouched; otherwise construct the `LifecycleRisk` (any
pydantic violation is likewise reported without mutating state) and
append it to the lifecycle-risks collection.  Returns the new state and
the violation list shown to the caller. -/
def add_lifecycle_risk (url_ok : String → Bool) (st : AppState) (rid sid : Nat)
    (phase : LifecyclePhase) (cat : RiskCategory) (stmt : String)
    (impact likelihood : Int) (mitigation owner : String)
    (links_input : String) (created : Nat) : AppState × List String :=
  let links := parse_evidence_links links_input
  let errs := validate_risk_form_text stmt mitigation owner ++ url_errors url_ok links
  if errs ≠ [] then (st, errs)
  else
    match mkLifecycleRisk rid sid phase cat (strip stmt) impact likelihood 0
        (some (strip mitigation)) (some (strip owner)) links created with
    | Except.ok r => ({ st with lifecycle_risks := st.lifecycle_risks ++ [r] }, [])
    | Except.error es => (st, es)

/-- `EvidenceArtifact` pydantic model. -/
structure EvidenceArtifact where
  name : String
  path : String
  sha256 : String
deriving DecidableEq

/-- `EvidenceManifest` pydantic model (run id and timestamp as `Nat`). -/
structure EvidenceManifest where
  run_id : Nat
  generated_at : Nat
  team_or_user : String
  app_version : String := "1.0.0"
  inputs_hash : Option String := none
  outputs_hash : Option String := none
  artifacts : List EvidenceArtifact
deriving DecidableEq

/-- The export-pipeline slice of the `app.py` session state. -/
structure ExportState where
  output_dir : String
  generated_files : List String
  evidence_manifest : Option EvidenceManifest
deriving DecidableEq

/-- `os.path.join(dir, file)`. -/
def joinPath (dir file : String) : String := dir ++ "/" ++ file

/-- `os.path.basename`: the longest suffix containing no path
separator. -/
def basename (p : String) : String :=
  String.mk ((p.data.reverse.takeWhile (fun c => c ≠ '/')).reverse)

/-- The Generate All Core Artifacts button: resets `generated_files` and
records the four artifact paths written under the run's output
directory (file contents are irrelevant to the manifest-structure
claims and are abstracted away). -/
def generate_core_artifacts (st : ExportState) : ExportState :=
  { st with generated_files :=
      [joinPath st.output_dir "model_inventory.csv",
       joinPath st.output_dir "risk_tiering.json",
       joinPath st.output_dir "lifecycle_risk_map.json",
       joinPath st.output_dir "case1_executive_summary.md"] }

/-- The path the evidence manifest is written to. -/
def manifest_path (st : ExportState) : String :=
  joinPath st.output_dir "evidence_manifest.json"

/-- The Generate Evidence Manifest button (`app.py` lines 1223-1251):
if no files were generated the click is a warned no-op; otherwise every
path currently in `generated_files` is hashed into one
`EvidenceArtifact`, the manifest is stored, and the manifest path is
appended to `generated_files` unless already present.  `hash` models
`calculate_sha256` as a function of the file path at this instant. -/
def generate_evidence_manifest (hash : String → String) (rid now : Nat)
    (st : ExportState) : ExportState :=
  if st.generated_files = [] then st
  else
    { st with
      evidence_manifest := some
        { run_id := rid
          generated_at := now
          team_or_user := "Sarah (AI Program Lead)"
          artifacts := st.generated_files.map (fun p =>
            { name := basename p, path := p, sha256 := hash p }) }
      generated_files :=
        if manifest_path st ∈ st.generated_files then st.generated_files
        else st.generated_files ++ [manifest_path st] }

/-- The paths listed in the current manifest (empty when no manifest has
been generated). -/
def manifest_artifact_paths (st : ExportState) : List String :=
  match st.evidence_manifest with
  | some m => m.artifacts.map EvidenceArtifact.path
  | none => []

/-- `create_zip_archive(files, archive_name, source_dir)` (`source.py`
lines 601-609): it calls `shutil.make_archive(archive_name, "zip",
root_dir=source_dir)`, which zips every file of the source directory at
the archive's top level; the `files` argument is only echoed to the
console.  The directory is modelled as an association list from file
name (relative to the directory, hence top level in the zip) to
content; the call returns the archive path and never fails on a missing
listed file. -/
def create_zip_archive (files : List String) (archive_name : String)
    (source_dir_files : List (String × String)) : String × List (String × String) :=
  (archive_name ++ ".zip", source_dir_files)

/-- Modelled from the spec: the claimed packaging contract — "all listed
files are placed at the top level of a zip-format archive rooted at the
output directory; packaging fails if any listed file is missing at pack
time" — which is absent from the code.  Used only to compare against
`create_zip_archive`. -/
def create_zip_archive_specified (files : List String) (archive_name : String)
    (source_dir_files : List (String × String)) :
    Option (String × List (String × String)) :=
  if files.all (fun f => (source_dir_files.map Prod.fst).contains (basename f)) then
    some (archive_name ++ ".zip",
      files.map (fun f => (basename f, ((source_dir_files.lookup (basename f)).getD ""))))
  else none

/-- The justification truncation of the narrative report (`app.py`
lines 1183-1186).  Python strings are sliced by character, so they are
modelled as character lists here. -/
def truncate_justification (justification : List Char) : List Char :=
  if 49 < justification.length then justification.take 46 ++ ['.', '.', '.']
  else justification

/-- The risk-statement truncation of the narrative report (`app.py`
lines 1198-1200). -/
def truncate_risk_statement (r_stmt : List Char) : List Char :=
  if 67 < r_stmt.length then r_stmt.take 64 ++ ['.', '.', '.']
  else r_stmt

lemma one_le_rubric_decision_criticality (c : DecisionCriticality) :
    1 ≤ SCORING_RUBRIC_decision_criticality c := by
  cases c <;> simp [SCORING_RUBRIC_decision_criticality]

lemma one_le_rubric_data_sensitivity (d : DataSensitivity) :
    1 ≤ SCORING_RUBRIC_data_sensitivity d := by
  cases d <;> simp [SCORING_RUBRIC_data_sensitivity]

lemma one_le_rubric_automation_level (a : AutomationLevel) :
    1 ≤ SCORING_RUBRIC_automation_level a := by
  cases a <;> simp [SCORING_RUBRIC_automation_level]

lemma three_le_rubric_ai_type (a : AIType) : 3 ≤ SCORING_RUBRIC_ai_type a := by
  cases a <;> simp [SCORING_RUBRIC_ai_type]

lemma one_le_rubric_deployment_mode (d : DeploymentMode) :
    1 ≤ SCORING_RUBRIC_deployment_mode d := by
  cases d <;> simp [SCORING_RUBRIC_deployment_mode]

lemma seven_le_totalScoreOf (s : SystemRecord) : 7 ≤ totalScoreOf s := by
  have h1 := one_le_rubric_decision_criticality s.decision_criticality
  have h2 := one_le_rubric_data_sensitivity s.data_sensitivity
  have h3 := one_le_rubric_automation_level s.automation_level
  have h4 := three_le_rubric_ai_type s.ai_type
  have h5 := one_le_rubric_deployment_mode s.deployment_mode
  simp only [totalScoreOf, baseBreakdown, List.map_cons, List.map_nil, List.sum_cons,
    List.sum_nil]
  omega

/-- C1: for every `SystemRecord`, the `total_score` entry of
`calculate_risk_tier`'s breakdown is the sum of the six rubric
dimension scores, and breakdown and tier depend only on the six scoring
attributes: records agreeing on them (but differing in id, name,
description, owner, domain, or timestamp) get identical breakdowns and
tiers. -/
theorem c1_total_score_rubric_sum_and_purity
    (s t : SystemRecord) (n m : Nat)
    (h1 : s.decision_criticality = t.decision_criticality)
    (h2 : s.data_sensitivity = t.data_sensitivity)
    (h3 : s.automation_level = t.automation_level)
    (h4 : s.ai_type = t.ai_type)
    (h5 : s.deployment_mode = t.deployment_mode)
    (h6 : s.external_dependencies = t.external_dependencies) :
    (calculate_risk_tier s n).score_breakdown.lookup "total_score" =
      some (SCORING_RUBRIC_decision_criticality s.decision_criticality +
            SCORING_RUBRIC_data_sensitivity s.data_sensitivity +
            SCORING_RUBRIC_automation_level s.automation_level +
            SCORING_RUBRIC_ai_type s.ai_type +
            SCORING_RUBRIC_deployment_mode s.deployment_mode +
            score_external_dependencies s.external_dependencies)
    ∧ (calculate_risk_tier s n).score_breakdown = (calculate_risk_tier t m).score_breakdown
    ∧ (calculate_risk_tier s n).risk_tier = (calculate_risk_tier t m).risk_tier := by
  refine ⟨?_, ?_, ?_⟩
  · simp only [calculate_risk_tier, totalScoreOf, baseBreakdown, List.map_cons,
      List.map_nil, List.sum_cons, List.sum_nil, List.cons_append, List.nil_append,
      List.lookup, String.reduceBEq]
    exact congrArg some (by omega)
  · simp only [calculate_risk_tier, totalScoreOf, baseBreakdown, h1, h2, h3, h4, h5, h6]
  · simp only [calculate_risk_tier, totalScoreOf, baseBreakdown, h1, h2, h3, h4, h5, h6]

/-- A concrete inventory record mirroring the credit-underwriting
scenario. -/
def witnessSystemA : SystemRecord :=
  { system_id := 10
    name := "ML-based Credit Underwriting Model"
    description := "Automates credit assessment for loan applications."
    domain := "Retail Banking"
    ai_type := AIType.ML
    owner_role := "Head of Lending Products"
    deployment_mode := DeploymentMode.REAL_TIME
    decision_criticality := DecisionCriticality.HIGH
    automation_level := AutomationLevel.FULLY_AUTOMATED
    data_sensitivity := DataSensitivity.REGULATED_PII
    external_dependencies := ["Credit Bureau API", "Fraud Detection Service"]
    last_updated := 0 }

/-- The same six scoring attributes with different identifier, name,
description, domain, owner and timestamp. -/
def witnessSystemB : SystemRecord :=
  { witnessSystemA with
    system_id := 11
    name := "Renamed Underwriting Engine"
    description := "A rewritten description."
    domain := "Lending"
    owner_role := "Chief Risk Officer"
    last_updated := 99 }

/-- C1 witness: two concrete records sharing the six scoring attributes
but differing elsewhere give the documented total 24 and the same
breakdown and tier. -/
theorem c1_witness :
    (calculate_risk_tier witnessSystemA 0).score_breakdown.lookup "total_score" =
      some 24
    ∧ (calculate_risk_tier witnessSystemA 0).score_breakdown =
        (calculate_risk_tier witnessSystemB 1).score_breakdown
    ∧ (calculate_risk_tier witnessSystemA 0).risk_tier =
        (calculate_risk_tier witnessSystemB 1).risk_tier := by
  have h := c1_total_score_rubric_sum_and_purity witnessSystemA witnessSystemB 0 1
    rfl rfl rfl rfl rfl rfl
  exact ⟨h.1, h.2.1, h.2.2⟩

/-- C2: the tier classification used by `calculate_risk_tier` assigns
every non-negative total score exactly one tier, with cut points 22
and 15 and no gap or overlap. -/
theorem c2_tier_thresholds_partition (n : Nat) :
    (tierOf n = RiskTier.TIER_1 ↔ 22 ≤ n) ∧
    (tierOf n = RiskTier.TIER_2 ↔ 15 ≤ n ∧ n ≤ 21) ∧
    (tierOf n = RiskTier.TIER_3 ↔ n ≤ 14) := by
  simp only [tierOf, TIER_1_MIN, TIER_2_MIN, TIER_2_MAX]
  refine ⟨?_, ?_, ?_⟩ <;> (split <;> try split) <;> simp_all <;> omega

/-- C10: the detailed view's Total Risk Score is the sum of every value
in the breakdown; since `calculate_risk_tier` stores `total_score`
alongside the six component scores, the displayed value is exactly
twice the stored total, and (totals being at least 7) never equal to
it. -/
theorem c10_displayed_score_is_double (s : SystemRecord) (n : Nat) :
    displayed_total_risk_score (calculate_risk_tier s n) = 2 * totalScoreOf s
    ∧ (calculate_risk_tier s n).score_breakdown.lookup "total_score" =
        some (totalScoreOf s)
    ∧ displayed_total_risk_score (calculate_risk_tier s n) ≠ totalScoreOf s := by
  have hd : displayed_total_risk_score (calculate_risk_tier s n) = 2 * totalScoreOf s := by
    simp only [displayed_total_risk_score, calculate_risk_tier, totalScoreOf, baseBreakdown,
      List.map_append, List.map_cons, List.map_nil, List.sum_append, List.sum_cons,
      List.sum_nil]
    omega
  have h7 := seven_le_totalScoreOf s
  refine ⟨hd, ?_, ?_⟩
  · simp only [calculate_risk_tier, totalScoreOf, baseBreakdown, List.map_cons,
      List.map_nil, List.sum_cons, List.sum_nil, List.cons_append, List.nil_append,
      List.lookup, String.reduceBEq]
  · omega

/-- C3: `severity` always equals `impact * likelihood` — immediately
after construction (a supplied `severity0` is overwritten by
`model_post_init`) and after the edit-form mutation, which recomputes
it from the new inputs. -/
theorem c3_severity_always_product :
    (∀ rid sid phase cat stmt (impact likelihood severity0 : Int) mit own links created r,
      mkLifecycleRisk rid sid phase cat stmt impact likelihood severity0 mit own links created
        = Except.ok r →
      r.severity = r.impact * r.likelihood) ∧
    (∀ (r : LifecycleRisk) phase cat stmt (impact likelihood : Int) mit own links,
      (edit_lifecycle_risk r phase cat stmt impact likelihood mit own links).severity =
        (edit_lifecycle_risk r phase cat stmt impact likelihood mit own links).impact *
          (edit_lifecycle_risk r phase cat stmt impact likelihood mit own links).likelihood) := by
  constructor
  · intro rid sid phase cat stmt impact likelihood severity0 mit own links created r hok
    unfold mkLifecycleRisk at hok
    cases hval : validateLifecycleRisk impact likelihood with
    | nil =>
        rw [hval] at hok
        cases hok
        rfl
    | cons e es =>
        rw [hval] at hok
        cases hok
  · intro r phase cat stmt impact likelihood mit own links
    rfl

/-- A concrete lifecycle risk used to instantiate the C3 theorem: the
construction that supplies `severity0 = 3` still yields severity
`5 * 4 = 20`. -/
def witnessRisk : LifecycleRisk :=
  { risk_id := 0
    system_id := 10
    lifecycle_phase := LifecyclePhase.DESIGN
    risk_category := RiskCategory.BIAS_FAIRNESS
    risk_statement := "Bias in historical training data leads to unfair lending decisions."
    impact := 5
    likelihood := 4
    severity := 20
    mitigation := none
    owner_role := none
    evidence_links := []
    created_at := 0 }

/-- C3 witness: the invariant instantiated at a concrete construction. -/
theorem c3_witness : witnessRisk.severity = witnessRisk.impact * witnessRisk.likelihood :=
  c3_severity_always_product.1 0 10 LifecyclePhase.DESIGN RiskCategory.BIAS_FAIRNESS
    "Bias in historical training data leads to unfair lending decisions."
    5 4 3 none none [] 0 witnessRisk (by rfl)

lemma mem_insertRisk (x z : LifecycleRisk) (l : List LifecycleRisk) :
    z ∈ insertRisk x l ↔ z = x ∨ z ∈ l := by
  induction l with
  | nil => simp [insertRisk]
  | cons y ys ih =>
      simp only [insertRisk]
      split
      · simp
      · simp only [List.mem_cons, ih]
        tauto

lemma pairwise_insertRisk (x : LifecycleRisk) (l : List LifecycleRisk)
    (hl : l.Pairwise (fun a b => b.severity ≤ a.severity)) :
    (insertRisk x l).Pairwise (fun a b => b.severity ≤ a.severity) := by
  induction l with
  | nil => simp [insertRisk]
  | cons y ys ih =>
      rw [List.pairwise_cons] at hl
      simp only [insertRisk]
      split
      · rename_i hyx
        refine List.pairwise_cons.mpr ⟨?_, List.pairwise_cons.mpr hl⟩
        intro z hz
        rcases List.mem_cons.mp hz with rfl | hz
        · exact hyx
        · exact le_trans (hl.1 z hz) hyx
      · rename_i hyx
        refine List.pairwise_cons.mpr ⟨?_, ih hl.2⟩
        intro z hz
        rcases (mem_insertRisk x z ys).mp hz with rfl | hz
        · omega
        · exact hl.1 z hz

lemma filter_insertRisk (x : LifecycleRisk) (l : List LifecycleRisk) (s : Int) :
    (insertRisk x l).filter (fun r => r.severity == s) =
      (x :: l).filter (fun r => r.severity == s) := by
  induction l with
  | nil => simp [insertRisk]
  | cons y ys ih =>
      simp only [insertRisk]
      split
      · rfl
      · rename_i hyx
        by_cases hxs : x.severity = s
        · by_cases hys : y.severity = s
          · omega
          · simp only [List.filter_cons]
            simp [hys, hxs, ih, List.filter_cons]
        · simp only [List.filter_cons]
          by_cases hys : y.severity = s <;> simp [hys, hxs, ih, List.filter_cons]

/-- C4: the severity ranking is a correct stable descending sort: in
the output every record precedes all records of strictly lower
severity (the sequence is non-increasing in severity), and for every
severity value the records carrying it appear in exactly their original
insertion order. -/
theorem c4_sort_desc_stable (l : List LifecycleRisk) :
    (sortRisksBySeverity l).Pairwise (fun a b => b.severity ≤ a.severity)
    ∧ ∀ s : Int,
        (sortRisksBySeverity l).filter (fun r => r.severity == s) =
          l.filter (fun r => r.severity == s) := by
  induction l with
  | nil => exact ⟨List.Pairwise.nil, fun s => rfl⟩
  | cons x xs ih =>
      refine ⟨pairwise_insertRisk x _ ih.1, fun s => ?_⟩
      rw [sortRisksBySeverity, filter_insertRisk x _ s]
      simp only [List.filter_cons]
      by_cases hxs : x.severity = s <;> simp [hxs, ih.2 s]

/-- C5: deleting system `x` removes from each of the three collections
exactly the records whose system identifier is `x`; all other records
survive in their original relative order (each filtered collection is a
sublist of the original). -/
theorem c5_cascading_delete_frame (st : AppState) (x : Nat) :
    ((deleteSystem st x).system_records.Sublist st.system_records
      ∧ ∀ s, s ∈ (deleteSystem st x).system_records ↔
          s ∈ st.system_records ∧ s.system_id ≠ x)
    ∧ ((deleteSystem st x).risk_tier_results.Sublist st.risk_tier_results
      ∧ ∀ r, r ∈ (deleteSystem st x).risk_tier_results ↔
          r ∈ st.risk_tier_results ∧ r.system_id ≠ x)
    ∧ ((deleteSystem st x).lifecycle_risks.Sublist st.lifecycle_risks
      ∧ ∀ lr, lr ∈ (deleteSystem st x).lifecycle_risks ↔
          lr ∈ st.lifecycle_risks ∧ lr.system_id ≠ x) := by
  refine ⟨⟨List.filter_sublist _, fun s => ?_⟩,
          ⟨List.filter_sublist _, fun r => ?_⟩,
          ⟨List.filter_sublist _, fun lr => ?_⟩⟩ <;>
    simp [deleteSystem, List.mem_filter]

/-- A fresh run-scoped export directory at session start. -/
def exportState0 : ExportState :=
  { output_dir := "output_artifacts/export_run"
    generated_files := []
    evidence_manifest := none }

/-- A stand-in content digest (the manifest-structure claims do not
depend on the digest values). -/
def idHash : String → String := fun p => p

/-- C6 counterexample: generate the four core artifacts, then click
Generate Evidence Manifest twice.  The first click appends the manifest
path to the generated-files list, so the second click hashes five
files — including the manifest file itself — and the resulting manifest
contains an entry for its own path, contradicting the claim that no
manifest ever references itself. -/
theorem c6_counterexample :
    manifest_artifact_paths
        (generate_evidence_manifest idHash 1 1
          (generate_evidence_manifest idHash 0 0 (generate_core_artifacts exportState0))) =
      ["output_artifacts/export_run/model_inventory.csv",
       "output_artifacts/export_run/risk_tiering.json",
       "output_artifacts/export_run/lifecycle_risk_map.json",
       "output_artifacts/export_run/case1_executive_summary.md",
       "output_artifacts/export_run/evidence_manifest.json"]
    ∧ manifest_path exportState0 ∈
        manifest_artifact_paths
          (generate_evidence_manifest idHash 1 1
            (generate_evidence_manifest idHash 0 0 (generate_core_artifacts exportState0))) := by
  constructor
  · rfl
  · decide

/-- C6 amended: on any manifest generation from a state whose
generated-files list is non-empty and does not yet contain the manifest
path (in particular, the first generation after the core artifacts are
produced), the manifest lists exactly one entry per previously
generated file, in order, and contains no entry for the manifest file
itself. -/
theorem c6_amended_first_generation (hash : String → String) (rid now : Nat)
    (st : ExportState) (hne : st.generated_files ≠ [])
    (hnotin : manifest_path st ∉ st.generated_files) :
    manifest_artifact_paths (generate_evidence_manifest hash rid now st) =
      st.generated_files
    ∧ manifest_path st ∉
        manifest_artifact_paths (generate_evidence_manifest hash rid now st) := by
  have hpaths : manifest_artifact_paths (generate_evidence_manifest hash rid now st) =
      st.generated_files := by
    simp [generate_evidence_manifest, if_neg hne, manifest_artifact_paths,
      List.map_map, Function.comp_def]
  exact ⟨hpaths, by rw [hpaths]; exact hnotin⟩

/-- C6 amended witness: the first manifest generation after producing
the core artifacts. -/
theorem c6_amended_witness :
    manifest_artifact_paths
        (generate_evidence_manifest idHash 0 0 (generate_core_artifacts exportState0)) =
      (generate_core_artifacts exportState0).generated_files
    ∧ manifest_path (generate_core_artifacts exportState0) ∉
        manifest_artifact_paths
          (generate_evidence_manifest idHash 0 0 (generate_core_artifacts exportState0)) :=
  c6_amended_first_generation idHash 0 0 (generate_core_artifacts exportState0)
    (by decide) (by decide)

/-- A listed file set containing one path that is absent from the
output directory at pack time. -/
def zipWitnessFiles : List String :=
  ["output_artifacts/export_run/model_inventory.csv",
   "output_artifacts/export_run/missing_artifact.json"]

/-- The output directory contents at pack time: the second listed file
is missing. -/
def zipWitnessDir : List (String × String) :=
  [("model_inventory.csv", "inventory rows")]

/-- C7 counterexample: with a listed file missing from the output
directory, `create_zip_archive` still succeeds and returns an archive
that simply lacks the missing file, whereas the claimed contract
(modelled by `create_zip_archive_specified`) demands failure. -/
theorem c7_counterexample :
    create_zip_archive zipWitnessFiles "audit_package_ai_governance" zipWitnessDir =
      ("audit_package_ai_governance.zip", [("model_inventory.csv", "inventory rows")])
    ∧ create_zip_archive_specified zipWitnessFiles "audit_package_ai_governance"
        zipWitnessDir = none := by
  constructor
  · rfl
  · decide

/-- C7 amended: packaging archives the entire output directory — the
archive holds exactly the directory's files at top level and the call
always succeeds; the listed-files argument does not influence the
archive, so a missing listed file is silently absent from it rather
than causing a failure. -/
theorem c7_amended_zip_is_whole_directory (files : List String) (archive_name : String)
    (dirFiles : List (String × String)) :
    create_zip_archive files archive_name dirFiles = (archive_name ++ ".zip", dirFiles)
    ∧ ∀ f ∈ files, basename f ∉ dirFiles.map Prod.fst →
        basename f ∉ (create_zip_archive files archive_name dirFiles).2.map Prod.fst :=
  ⟨rfl, fun _ _ h => h⟩

/-- C7 amended witness: packaging the witness directory with a missing
listed file succeeds and omits that file. -/
theorem c7_amended_witness :
    create_zip_archive zipWitnessFiles "audit_package_ai_governance" zipWitnessDir =
      ("audit_package_ai_governance.zip", zipWitnessDir)
    ∧ basename "output_artifacts/export_run/missing_artifact.json" ∉
        (create_zip_archive zipWitnessFiles "audit_package_ai_governance"
          zipWitnessDir).2.map Prod.fst :=
  ⟨(c7_amended_zip_is_whole_directory zipWitnessFiles "audit_package_ai_governance"
      zipWitnessDir).1,
   (c7_amended_zip_is_whole_directory zipWitnessFiles "audit_package_ai_governance"
      zipWitnessDir).2 "output_artifacts/export_run/missing_artifact.json"
      (by decide) (by decide)⟩

/-- C8: a `LifecycleRisk` whose impact or likelihood falls outside
`[1,5]` is rejected with the (non-empty) list of violations and no
object is produced; and whenever the add-risk form reports any
violation list, the session state — in particular the lifecycle-risks
collection — is exactly what it was before the attempt. -/
theorem c8_validation_rejects_and_preserves_state :
    (∀ rid sid phase cat stmt (impact likelihood severity0 : Int) mit own links created,
      (impact < 1 ∨ 5 < impact ∨ likelihood < 1 ∨ 5 < likelihood) →
      mkLifecycleRisk rid sid phase cat stmt impact likelihood severity0 mit own links
          created = Except.error (validateLifecycleRisk impact likelihood)
      ∧ validateLifecycleRisk impact likelihood ≠ []) ∧
    (∀ url_ok st rid sid phase cat stmt (impact likelihood : Int) mit own links_input
        created,
      (add_lifecycle_risk url_ok st rid sid phase cat stmt impact likelihood mit own
          links_input created).2 ≠ [] →
      (add_lifecycle_risk url_ok st rid sid phase cat stmt impact likelihood mit own
          links_input created).1 = st) := by
  constructor
  · intro rid sid phase cat stmt impact likelihood severity0 mit own links created h
    have hv : validateLifecycleRisk impact likelihood ≠ [] := by
      unfold validateLifecycleRisk
      rcases h with h | h | h | h
      · rw [if_pos (Or.inl h)]; simp
      · rw [if_pos (Or.inr h)]; simp
      · rw [if_pos (Or.inl h) (c := likelihood < 1 ∨ 5 < likelihood)]
        simp [List.append_eq_nil]
      · rw [if_pos (Or.inr h) (c := likelihood < 1 ∨ 5 < likelihood)]
        simp [List.append_eq_nil]
    refine ⟨?_, hv⟩
    unfold mkLifecycleRisk
    cases hval : validateLifecycleRisk impact likelihood with
    | nil => exact absurd hval hv
    | cons e es => rfl
  · intro url_ok st rid sid phase cat stmt impact likelihood mit own links_input created h2
    simp only [add_lifecycle_risk] at h2 ⊢
    by_cases hc : (validate_risk_form_text stmt mit own ++
        url_errors url_ok (parse_evidence_links links_input)) = []
    · rw [if_neg (not_not_intro hc)] at h2 ⊢
      cases hmk : mkLifecycleRisk rid sid phase cat (strip stmt) impact likelihood 0
          (some (strip mit)) (some (strip own)) (parse_evidence_links links_input) created with
      | ok r => rw [hmk] at h2; exact absurd rfl h2
      | error es => rfl
    · rw [if_pos hc] at h2 ⊢

/-- An empty session state for the C8 witness. -/
def witnessAppState : AppState :=
  { system_records := []
    risk_tier_results := []
    lifecycle_risks := [] }

/-- C8 witness: impact 7 is rejected with a non-empty violation list,
and a form submission with a too-short risk statement leaves the empty
state untouched. -/
theorem c8_witness :
    (mkLifecycleRisk 0 10 LifecyclePhase.DESIGN RiskCategory.BIAS_FAIRNESS
        "Bias in historical training data leads to unfair lending decisions."
        7 3 0 none none [] 0 = Except.error (validateLifecycleRisk 7 3)
      ∧ validateLifecycleRisk 7 3 ≠ [])
    ∧ (add_lifecycle_risk (fun _ => true) witnessAppState 1 10 LifecyclePhase.DESIGN
        RiskCategory.BIAS_FAIRNESS "short" 3 3 "Implement fairness metrics."
        "Data Lead" "" 0).1 = witnessAppState :=
  ⟨c8_validation_rejects_and_preserves_state.1 0 10 LifecyclePhase.DESIGN
      RiskCategory.BIAS_FAIRNESS
      "Bias in historical training data leads to unfair lending decisions."
      7 3 0 none none [] 0 (by omega),
   c8_validation_rejects_and_preserves_state.2 (fun _ => true) witnessAppState 1 10
      LifecyclePhase.DESIGN RiskCategory.BIAS_FAIRNESS "short" 3 3
      "Implement fairness metrics." "Data Lead" "" 0 (by decide)⟩

/-- C9: in the narrative report a justification longer than 49
characters becomes its first 46 characters plus an ellipsis (a
49-character result) and is otherwise kept whole; a risk statement
longer than 67 characters becomes its first 64 characters plus an
ellipsis (a 67-character result) and is otherwise kept whole. -/
theorem c9_truncation_rule (j r : List Char) :
    (49 < j.length →
      truncate_justification j = j.take 46 ++ ['.', '.', '.']
      ∧ (truncate_justification j).length = 49)
    ∧ (j.length ≤ 49 → truncate_justification j = j)
    ∧ (67 < r.length →
      truncate_risk_statement r = r.take 64 ++ ['.', '.', '.']
      ∧ (truncate_risk_statement r).length = 67)
    ∧ (r.length ≤ 67 → truncate_risk_statement r = r) := by
  refine ⟨fun h => ⟨?_, ?_⟩, fun h => ?_, fun h => ⟨?_, ?_⟩, fun h => ?_⟩
  · simp only [truncate_justification, if_pos h]
  · simp only [truncate_justification, if_pos h, List.length_append, List.length_take,
      List.length_cons, List.length_nil]
    omega
  · simp only [truncate_justification, if_neg (by omega : ¬49 < j.length)]
  · simp only [truncate_risk_statement, if_pos h]
  · simp only [truncate_risk_statement, if_pos h, List.length_append, List.length_take,
      List.length_cons, List.length_nil]
    omega
  · simp only [truncate_risk_statement, if_neg (by omega : ¬67 < r.length)]

/-- C9 witness: a 60-character justification is truncated to 49
characters ending in the ellipsis, and a 60-character risk statement is
kept whole. -/
theorem c9_witness :
    truncate_justification (List.replicate 60 'a') =
      (List.replicate 60 'a').take 46 ++ ['.', '.', '.']
    ∧ (truncate_justification (List.replicate 60 'a')).length = 49
    ∧ truncate_risk_statement (List.replicate 60 'b') = List.replicate 60 'b' := by
  have h := c9_truncation_rule (List.replicate 60 'a') (List.replicate 60 'b')
  exact ⟨(h.1 (by decide)).1, (h.1 (by decide)).2, h.2.2.2 (by decide)⟩

end AIGov
